import Mathlib

/-!
Shallow embedding of the TalaTrivia API (files `app/models.py`, `app/schemas.py`,
`app/main.py`).

The five entity tables of `app/models.py` become lists inside a `DB` record; the
SQLAlchemy autoincrement primary keys become explicit `next_*_id` counters
(`fecha_creacion` / `fecha_respuesta` timestamp columns and the surrogate `id`
columns of the two pure join tables are not read anywhere in the code and are
omitted).  Each state-changing endpoint handler of `app/main.py` becomes a
function `DB → ApiResult α`: `ok` carries the store after the commit, `err`
carries the store at the moment the `HTTPException` is raised (in this code
every raise happens before any mutation), and `crash` models an unhandled
`AttributeError` on a `None` query result.  Query `.first()` is `List.find?`,
`.all()` with a filter is `List.filter`, and Python's stable
`sort(key=..., reverse=True)` is `List.mergeSort` with the reversed order.
-/

/-- Model of `models.Usuario`: id, nombre, email. -/
structure Usuario where
  id : Nat
  nombre : String
  email : String
deriving DecidableEq

/-- Model of `models.Pregunta`: the `opciones` JSON mapping is a key/value list. -/
structure Pregunta where
  id : Nat
  texto_pregunta : String
  opciones : List (String × String)
  respuesta_correcta : String
  dificultad : String
deriving DecidableEq

/-- Model of `models.Trivia` (without the unused `fecha_creacion` timestamp). -/
structure Trivia where
  id : Nat
  nombre : String
  descripcion : Option String
deriving DecidableEq

/-- Model of `models.TriviaPregunta` join row. -/
structure TriviaPregunta where
  trivia_id : Nat
  pregunta_id : Nat
deriving DecidableEq

/-- Model of `models.TriviaUsuario` join row. -/
structure TriviaUsuario where
  trivia_id : Nat
  usuario_id : Nat
deriving DecidableEq

/-- Model of `models.Participacion` (without the unused `fecha_respuesta`).
`es_correcta` is an integer column holding 0 or 1, as in the source. -/
structure Participacion where
  id : Nat
  usuario_id : Nat
  trivia_id : Nat
  pregunta_id : Nat
  respuesta_dada : String
  es_correcta : Nat
  puntaje_obtenido : Nat
deriving DecidableEq

/-- Model of `schemas.UsuarioCreate` request body. -/
structure UsuarioCreate where
  nombre : String
  email : String
deriving DecidableEq

/-- Model of `schemas.PreguntaCreate` request body. -/
structure PreguntaCreate where
  texto_pregunta : String
  opciones : List (String × String)
  respuesta_correcta : String
  dificultad : String
deriving DecidableEq

/-- Model of `schemas.TriviaCreate` request body. -/
structure TriviaCreate where
  nombre : String
  descripcion : Option String
  pregunta_ids : List Nat
  usuario_ids : List Nat
deriving DecidableEq

/-- Model of `schemas.ParticipacionCreate` request body (note: it carries its own
`trivia_id` field, distinct from the path parameter of the endpoint). -/
structure ParticipacionCreate where
  usuario_id : Nat
  trivia_id : Nat
  pregunta_id : Nat
  respuesta_dada : String
deriving DecidableEq

/-- Model of `schemas.PreguntaJugador`: the player view of a question; by construction
it has only `id`, `texto_pregunta` and `opciones`. -/
structure PreguntaJugador where
  id : Nat
  texto_pregunta : String
  opciones : List (String × String)
deriving DecidableEq

/-- The response dict of `obtener_puntaje_usuario`. -/
structure PuntajeResponse where
  usuario_id : Nat
  trivia_id : Nat
  puntaje_total : Nat
  total_respuestas : Nat
  respuestas_correctas : Nat
deriving DecidableEq

/-- The intermediate ranking dict built inside `obtener_ranking`
(before positions are assigned). -/
structure RankingEntry where
  usuario_id : Nat
  usuario_nombre : String
  puntaje_total : Nat
deriving DecidableEq

/-- Model of `schemas.RankingItem`. -/
structure RankingItem where
  posicion : Nat
  usuario_id : Nat
  usuario_nombre : String
  puntaje_total : Nat
deriving DecidableEq

/-- Model of `schemas.RankingResponse`. -/
structure RankingResponse where
  trivia_id : Nat
  trivia_nombre : String
  ranking : List RankingItem
deriving DecidableEq

/-- The record store: the five tables plus autoincrement counters. -/
structure DB where
  usuarios : List Usuario
  preguntas : List Pregunta
  trivias : List Trivia
  trivia_preguntas : List TriviaPregunta
  trivia_usuarios : List TriviaUsuario
  participaciones : List Participacion
  next_usuario_id : Nat
  next_pregunta_id : Nat
  next_trivia_id : Nat
  next_participacion_id : Nat
deriving DecidableEq

/-- The freshly created database (`Base.metadata.create_all`). -/
def DB.empty : DB :=
  { usuarios := [], preguntas := [], trivias := [], trivia_preguntas := []
    trivia_usuarios := [], participaciones := []
    next_usuario_id := 1, next_pregunta_id := 1, next_trivia_id := 1
    next_participacion_id := 1 }

/-- Result of one endpoint handler: success with the committed store and the
response value, an `HTTPException` with status code and detail (carrying the
store as of the raise), or an unhandled exception. -/
inductive ApiResult (α : Type) where
  | ok : DB → α → ApiResult α
  | err : DB → Nat → String → ApiResult α
  | crash : ApiResult α
deriving DecidableEq

/-- The caller-visible part of an `ApiResult` (response only, store dropped). -/
inductive Outcome (α : Type) where
  | ok : α → Outcome α
  | err : Nat → String → Outcome α
  | crash : Outcome α
deriving DecidableEq

/-- Drop the store component of a result. -/
def ApiResult.outcome {α : Type} : ApiResult α → Outcome α
  | .ok _ v => .ok v
  | .err _ c d => .err c d
  | .crash => .crash

/-- Handler of `POST /usuarios` (`crear_usuario` in `app/main.py`). -/
def crear_usuario (usuario : UsuarioCreate) (db : DB) : ApiResult Usuario :=
  match db.usuarios.find? (fun x => x.email == usuario.email) with
  | some _ => .err db 400 "El email ya está registrado"
  | none =>
    let nuevo_usuario : Usuario :=
      { id := db.next_usuario_id, nombre := usuario.nombre, email := usuario.email }
    .ok { db with usuarios := db.usuarios ++ [nuevo_usuario]
                  next_usuario_id := db.next_usuario_id + 1 } nuevo_usuario

/-- The list `dificultades_validas` of `crear_pregunta`. -/
def dificultades_validas : List String := ["fácil", "medio", "difícil"]

/-- Handler of `POST /preguntas` (`crear_pregunta`). `respuesta_correcta not in
pregunta.opciones` is key membership of the dict. -/
def crear_pregunta (pregunta : PreguntaCreate) (db : DB) : ApiResult Pregunta :=
  if ¬ (pregunta.opciones.map Prod.fst).contains pregunta.respuesta_correcta then
    .err db 400 "La respuesta correcta debe estar en las opciones"
  else if ¬ dificultades_validas.contains pregunta.dificultad then
    .err db 400 "La dificultad debe ser una de: fácil, medio, difícil"
  else
    let nueva_pregunta : Pregunta :=
      { id := db.next_pregunta_id, texto_pregunta := pregunta.texto_pregunta
        opciones := pregunta.opciones, respuesta_correcta := pregunta.respuesta_correcta
        dificultad := pregunta.dificultad }
    .ok { db with preguntas := db.preguntas ++ [nueva_pregunta]
                  next_pregunta_id := db.next_pregunta_id + 1 } nueva_pregunta

/-- Handler of `POST /trivias` (`crear_trivia`): the two existence checks compare the
number of matching records with the length of the submitted id list; both
checks precede every insert. -/
def crear_trivia (trivia : TriviaCreate) (db : DB) : ApiResult Trivia :=
  let preguntas := db.preguntas.filter (fun q => trivia.pregunta_ids.contains q.id)
  if preguntas.length ≠ trivia.pregunta_ids.length then
    .err db 400 "Alguna pregunta no existe"
  else
    let usuarios := db.usuarios.filter (fun u => trivia.usuario_ids.contains u.id)
    if usuarios.length ≠ trivia.usuario_ids.length then
      .err db 400 "Algún usuario no existe"
    else
      let nueva_trivia : Trivia :=
        { id := db.next_trivia_id, nombre := trivia.nombre, descripcion := trivia.descripcion }
      let nuevos_tp := trivia.pregunta_ids.map
        (fun pregunta_id => TriviaPregunta.mk nueva_trivia.id pregunta_id)
      let nuevos_tu := trivia.usuario_ids.map
        (fun usuario_id => TriviaUsuario.mk nueva_trivia.id usuario_id)
      .ok { db with trivias := db.trivias ++ [nueva_trivia]
                    trivia_preguntas := db.trivia_preguntas ++ nuevos_tp
                    trivia_usuarios := db.trivia_usuarios ++ nuevos_tu
                    next_trivia_id := db.next_trivia_id + 1 } nueva_trivia

/-- The detail string of the trivia 404 (an f-string in the source). -/
def triviaNotFoundMsg (trivia_id : Nat) : String :=
  "Trivia con ID " ++ toString trivia_id ++ " no encontrada"

/-- Handler of `GET /trivias/{trivia_id}/usuario/{usuario_id}/preguntas`
(`ver_trivia_jugador`): questions whose record is missing are silently
skipped (`if pregunta:`), hence the `filterMap`. -/
def ver_trivia_jugador (trivia_id usuario_id : Nat) (db : DB) :
    ApiResult (List PreguntaJugador) :=
  match db.trivia_usuarios.find?
      (fun a => a.trivia_id == trivia_id && a.usuario_id == usuario_id) with
  | none => .err db 404 "El usuario no está asignado a esta trivia"
  | some _ =>
    let trivia_preguntas := db.trivia_preguntas.filter (fun tp => tp.trivia_id == trivia_id)
    let preguntas_jugador := trivia_preguntas.filterMap (fun tp =>
      (db.preguntas.find? (fun q => q.id == tp.pregunta_id)).map (fun pregunta =>
        { id := pregunta.id, texto_pregunta := pregunta.texto_pregunta
          opciones := pregunta.opciones }))
    .ok db preguntas_jugador

/-- The `puntajes` dict of `responder_pregunta` with its `.get(d, 0)` default. -/
def puntajes (dificultad : String) : Nat :=
  if dificultad == "fácil" then 1
  else if dificultad == "medio" then 2
  else if dificultad == "difícil" then 3
  else 0

/-- Handler of `POST /trivias/{trivia_id}/responder` (`responder_pregunta`): the four
checks in source order, then scoring, then the insert.  The body's own
`trivia_id` field is never read; every comparison uses the path parameter.
If the question row itself is missing the source dereferences `None`
(`pregunta.respuesta_correcta`), modelled as `crash`. -/
def responder_pregunta (trivia_id : Nat) (participacion : ParticipacionCreate)
    (db : DB) : ApiResult Participacion :=
  match db.trivias.find? (fun x => x.id == trivia_id) with
  | none => .err db 404 (triviaNotFoundMsg trivia_id)
  | some _ =>
  match db.trivia_usuarios.find?
      (fun a => a.trivia_id == trivia_id && a.usuario_id == participacion.usuario_id) with
  | none => .err db 403 "El usuario no está asignado a esta trivia"
  | some _ =>
  match db.trivia_preguntas.find?
      (fun tp => tp.trivia_id == trivia_id && tp.pregunta_id == participacion.pregunta_id) with
  | none => .err db 400 "La pregunta no pertenece a esta trivia"
  | some _ =>
  match db.participaciones.find?
      (fun p => p.usuario_id == participacion.usuario_id && p.trivia_id == trivia_id &&
        p.pregunta_id == participacion.pregunta_id) with
  | some _ => .err db 400 "Ya has respondido esta pregunta"
  | none =>
  match db.preguntas.find? (fun q => q.id == participacion.pregunta_id) with
  | none => .crash
  | some pregunta =>
    let es_correcta : Nat :=
      if participacion.respuesta_dada == pregunta.respuesta_correcta then 1 else 0
    let puntaje_obtenido : Nat :=
      if es_correcta != 0 then puntajes pregunta.dificultad else 0
    let nueva_participacion : Participacion :=
      { id := db.next_participacion_id
        usuario_id := participacion.usuario_id
        trivia_id := trivia_id
        pregunta_id := participacion.pregunta_id
        respuesta_dada := participacion.respuesta_dada
        es_correcta := es_correcta
        puntaje_obtenido := puntaje_obtenido }
    .ok { db with participaciones := db.participaciones ++ [nueva_participacion]
                  next_participacion_id := db.next_participacion_id + 1 }
      nueva_participacion

/-- Handler of `GET /trivias/{trivia_id}/usuario/{usuario_id}/puntaje`
(`obtener_puntaje_usuario`): no existence or membership check at all. -/
def obtener_puntaje_usuario (trivia_id usuario_id : Nat) (db : DB) :
    ApiResult PuntajeResponse :=
  let participaciones := db.participaciones.filter
    (fun p => p.trivia_id == trivia_id && p.usuario_id == usuario_id)
  let puntaje_total := (participaciones.map (fun p => p.puntaje_obtenido)).sum
  .ok db
    { usuario_id := usuario_id, trivia_id := trivia_id
      puntaje_total := puntaje_total
      total_respuestas := participaciones.length
      respuestas_correctas := participaciones.countP (fun p => p.es_correcta == 1) }

/-- The per-assignment loop of `obtener_ranking`: for each `TriviaUsuario` row
look up the user (a `None` here would be dereferenced, hence `Option`), sum
that user's `puntaje_obtenido` over the trivia's participaciones. -/
def rankingEntries (db : DB) (trivia_id : Nat) :
    List TriviaUsuario → Option (List RankingEntry)
  | [] => some []
  | asignacion :: rest =>
    match db.usuarios.find? (fun x => x.id == asignacion.usuario_id) with
    | none => none
    | some usuario =>
      let participaciones := db.participaciones.filter
        (fun p => p.trivia_id == trivia_id && p.usuario_id == usuario.id)
      let puntaje_total := (participaciones.map (fun p => p.puntaje_obtenido)).sum
      match rankingEntries db trivia_id rest with
      | none => none
      | some entries =>
        some ({ usuario_id := usuario.id, usuario_nombre := usuario.nombre
                puntaje_total := puntaje_total } :: entries)

/-- Model of `enumerate(ranking_items, start=1)`: positions by enumeration order. -/
def addPositions : Nat → List RankingEntry → List RankingItem
  | _, [] => []
  | n, e :: rest =>
    { posicion := n, usuario_id := e.usuario_id, usuario_nombre := e.usuario_nombre
      puntaje_total := e.puntaje_total } :: addPositions (n + 1) rest

/-- Handler of `GET /trivias/{trivia_id}/ranking` (`obtener_ranking`). -/
def obtener_ranking (trivia_id : Nat) (db : DB) : ApiResult RankingResponse :=
  match db.trivias.find? (fun x => x.id == trivia_id) with
  | none => .err db 404 (triviaNotFoundMsg trivia_id)
  | some trivia =>
    let asignaciones := db.trivia_usuarios.filter (fun a => a.trivia_id == trivia_id)
    match rankingEntries db trivia_id asignaciones with
    | none => .crash
    | some ranking_items =>
      let ordenados := ranking_items.mergeSort
        (fun a b => decide (b.puntaje_total ≤ a.puntaje_total))
      .ok db { trivia_id := trivia_id, trivia_nombre := trivia.nombre
               ranking := addPositions 1 ordenados }

/-- One state-changing request.  The `GET` endpoints return the store
unchanged, so they contribute no transitions. -/
inductive Step : DB → DB → Prop
  | usuario {db db' : DB} {u : UsuarioCreate} {r : Usuario} :
      crear_usuario u db = .ok db' r → Step db db'
  | pregunta {db db' : DB} {q : PreguntaCreate} {r : Pregunta} :
      crear_pregunta q db = .ok db' r → Step db db'
  | trivia {db db' : DB} {t : TriviaCreate} {r : Trivia} :
      crear_trivia t db = .ok db' r → Step db db'
  | responder {db db' : DB} {tid : Nat} {pc : ParticipacionCreate} {r : Participacion} :
      responder_pregunta tid pc db = .ok db' r → Step db db'

/-- Stores reachable from the fresh database through the public operations. -/
inductive Reachable : DB → Prop
  | init : Reachable DB.empty
  | step {db db' : DB} : Reachable db → Step db db' → Reachable db'

/-- The identifying triple of a Participacion row. -/
def Participacion.triple (p : Participacion) : Nat × Nat × Nat :=
  (p.usuario_id, p.trivia_id, p.pregunta_id)

/-! ### Generic list lemmas for the `crear_trivia` length checks -/

/-- A duplicate-free list is no longer than any list containing it. -/
theorem nodup_length_le_of_subset {α : Type} [DecidableEq α] {l1 l2 : List α}
    (h1 : l1.Nodup) (hsub : l1 ⊆ l2) : l1.length ≤ l2.length := by
  calc l1.length = l1.toFinset.card := (List.toFinset_card_of_nodup h1).symm
    _ ≤ l2.toFinset.card :=
        Finset.card_le_card (fun x hx => List.mem_toFinset.2 (hsub (List.mem_toFinset.1 hx)))
    _ = l2.dedup.length := List.card_toFinset l2
    _ ≤ l2.length := (List.dedup_sublist l2).length_le

/-- The core of the `crear_trivia` existence checks: when the table `S` has
duplicate-free ids `f`, the number of records whose id occurs in the submitted
list `L` equals `L.length` exactly when `L` has no duplicates and every id of
`L` resolves. -/
theorem filter_contains_length_eq_iff {α : Type} (f : α → Nat) (S : List α) (L : List Nat)
    (hS : (S.map f).Nodup) :
    (S.filter (fun r => L.contains (f r))).length = L.length ↔
      (L.Nodup ∧ ∀ x ∈ L, ∃ r ∈ S, f r = x) := by
  have hT : (S.map f).filter (fun x => L.contains x) =
      (S.filter (fun r => L.contains (f r))).map f := List.filter_map f S
  set T := (S.map f).filter (fun x => L.contains x) with hTdef
  have hlen : (S.filter (fun r => L.contains (f r))).length = T.length := by
    rw [hT, List.length_map]
  have hTnodup : T.Nodup := hS.filter _
  have hTsub : T ⊆ L := by
    intro x hx
    exact List.elem_iff.1 (List.mem_filter.1 hx).2
  have hmemT : ∀ x, x ∈ T → ∃ r ∈ S, f r = x := by
    intro x hx
    have hx' : x ∈ S.map f := (List.mem_filter.1 hx).1
    exact List.mem_map.1 hx'
  constructor
  · intro h
    rw [hlen] at h
    have hdsub : T ⊆ L.dedup := fun x hx => List.mem_dedup.2 (hTsub hx)
    have h1 : T.length ≤ L.dedup.length := nodup_length_le_of_subset hTnodup hdsub
    have h2 : L.dedup.length ≤ L.length := (List.dedup_sublist L).length_le
    have hded : L.dedup.length = L.length := by omega
    have hLdedup : L.dedup = L := (List.dedup_sublist L).eq_of_length hded
    have hLnodup : L.Nodup := by rw [← hLdedup]; exact List.nodup_dedup L
    refine ⟨hLnodup, ?_⟩
    have hfsub : T.toFinset ⊆ L.toFinset :=
      fun x hx => List.mem_toFinset.2 (hTsub (List.mem_toFinset.1 hx))
    have hcards : L.toFinset.card ≤ T.toFinset.card := by
      rw [List.toFinset_card_of_nodup hTnodup, List.toFinset_card_of_nodup hLnodup, h]
    have hfeq : T.toFinset = L.toFinset := Finset.eq_of_subset_of_card_le hfsub hcards
    intro x hx
    have hxT : x ∈ T := List.mem_toFinset.1 (hfeq ▸ List.mem_toFinset.2 hx)
    exact hmemT x hxT
  · rintro ⟨hLnodup, hex⟩
    rw [hlen]
    have hLsub : L ⊆ T := by
      intro x hx
      obtain ⟨r, hr, hfr⟩ := hex x hx
      refine List.mem_filter.2 ⟨List.mem_map.2 ⟨r, hr, hfr⟩, ?_⟩
      exact List.elem_iff.2 (hfr ▸ hx)
    have h1 : T.length ≤ L.length := nodup_length_le_of_subset hTnodup hTsub
    have h2 : L.length ≤ T.length := nodup_length_le_of_subset hLnodup hLsub
    omega

/-! ### Inversion lemmas for the state-changing handlers -/

/-- Successful `crear_usuario`: the new row and the committed store. -/
theorem crear_usuario_ok_inv {u : UsuarioCreate} {db db' : DB} {r : Usuario}
    (h : crear_usuario u db = .ok db' r) :
    (∀ x ∈ db.usuarios, x.email ≠ u.email) ∧
    r = { id := db.next_usuario_id, nombre := u.nombre, email := u.email } ∧
    db' = { db with usuarios := db.usuarios ++ [r]
                    next_usuario_id := db.next_usuario_id + 1 } := by
  unfold crear_usuario at h
  split at h
  · cases h
  · next hfind =>
    cases h
    refine ⟨?_, rfl, rfl⟩
    intro x hx hmail
    have := List.find?_eq_none.1 hfind x hx
    simp [hmail] at this

/-- Successful `crear_pregunta`: the validations passed and the row committed. -/
theorem crear_pregunta_ok_inv {q : PreguntaCreate} {db db' : DB} {r : Pregunta}
    (h : crear_pregunta q db = .ok db' r) :
    r = { id := db.next_pregunta_id, texto_pregunta := q.texto_pregunta
          opciones := q.opciones, respuesta_correcta := q.respuesta_correcta
          dificultad := q.dificultad } ∧
    db' = { db with preguntas := db.preguntas ++ [r]
                    next_pregunta_id := db.next_pregunta_id + 1 } := by
  unfold crear_pregunta at h
  split at h
  · cases h
  · split at h
    · cases h
    · cases h; exact ⟨rfl, rfl⟩

/-- Successful `crear_trivia`: both length checks passed and the trivia plus
its two link collections are committed together. -/
theorem crear_trivia_ok_inv {t : TriviaCreate} {db db' : DB} {r : Trivia}
    (h : crear_trivia t db = .ok db' r) :
    (db.preguntas.filter (fun q => t.pregunta_ids.contains q.id)).length
        = t.pregunta_ids.length ∧
    (db.usuarios.filter (fun u => t.usuario_ids.contains u.id)).length
        = t.usuario_ids.length ∧
    r = { id := db.next_trivia_id, nombre := t.nombre, descripcion := t.descripcion } ∧
    db' = { db with
            trivias := db.trivias ++ [r]
            trivia_preguntas := db.trivia_preguntas ++
              t.pregunta_ids.map (fun pregunta_id => TriviaPregunta.mk db.next_trivia_id pregunta_id)
            trivia_usuarios := db.trivia_usuarios ++
              t.usuario_ids.map (fun usuario_id => TriviaUsuario.mk db.next_trivia_id usuario_id)
            next_trivia_id := db.next_trivia_id + 1 } := by
  unfold crear_trivia at h
  dsimp only [] at h
  split at h
  · cases h
  · next h1 =>
    split at h
    · cases h
    · next h2 =>
      cases h
      exact ⟨of_not_not h1, of_not_not h2, rfl, rfl⟩

/-- Successful `responder_pregunta`: all four checks passed, the question row
was found, and exactly one new `Participacion` was appended. -/
theorem responder_ok_inv {trivia_id : Nat} {pc : ParticipacionCreate} {db db' : DB}
    {r : Participacion} (h : responder_pregunta trivia_id pc db = .ok db' r) :
    (∃ t ∈ db.trivias, t.id = trivia_id) ∧
    (∃ a ∈ db.trivia_usuarios, a.trivia_id = trivia_id ∧ a.usuario_id = pc.usuario_id) ∧
    (∃ tp ∈ db.trivia_preguntas, tp.trivia_id = trivia_id ∧ tp.pregunta_id = pc.pregunta_id) ∧
    (∀ p ∈ db.participaciones,
      ¬(p.usuario_id = pc.usuario_id ∧ p.trivia_id = trivia_id ∧
        p.pregunta_id = pc.pregunta_id)) ∧
    (∃ q ∈ db.preguntas, q.id = pc.pregunta_id) ∧
    r.usuario_id = pc.usuario_id ∧ r.trivia_id = trivia_id ∧
    r.pregunta_id = pc.pregunta_id ∧
    db' = { db with participaciones := db.participaciones ++ [r]
                    next_participacion_id := db.next_participacion_id + 1 } := by
  unfold responder_pregunta at h
  split at h
  · cases h
  · next t1 ht1 =>
    split at h
    · cases h
    · next a1 ha1 =>
      split at h
      · cases h
      · next tp1 htp1 =>
        split at h
        · cases h
        · next hpart =>
          split at h
          · cases h
          · next q1 hq1 =>
            cases h
            refine ⟨⟨t1, List.mem_of_find?_eq_some ht1, ?_⟩,
                    ⟨a1, List.mem_of_find?_eq_some ha1, ?_⟩,
                    ⟨tp1, List.mem_of_find?_eq_some htp1, ?_⟩,
                    ?_, ⟨q1, List.mem_of_find?_eq_some hq1, ?_⟩,
                    rfl, rfl, rfl, rfl⟩
            · have := List.find?_some ht1
              simpa using this
            · have := List.find?_some ha1
              simp at this
              omega
            · have := List.find?_some htp1
              simp at this
              omega
            · intro p hp hbad
              have := List.find?_eq_none.1 hpart p hp
              simp at this
              omega
            · have := List.find?_some hq1
              simpa using this

/-! ### State invariants maintained by the public operations -/

/-- Invariants of every store reachable through the API: primary keys are
below their counter and duplicate-free; every `TriviaUsuario` row points at an
existing user and trivia and is unique per (trivia, user); `Participacion`
rows are unique per (user, trivia, question) and point at an existing trivia,
an existing user assignment and an existing question assignment. -/
structure DBInv (db : DB) : Prop where
  usuarios_lt : ∀ u ∈ db.usuarios, u.id < db.next_usuario_id
  usuarios_nodup : (db.usuarios.map Usuario.id).Nodup
  preguntas_lt : ∀ q ∈ db.preguntas, q.id < db.next_pregunta_id
  preguntas_nodup : (db.preguntas.map Pregunta.id).Nodup
  trivias_lt : ∀ t ∈ db.trivias, t.id < db.next_trivia_id
  trivias_nodup : (db.trivias.map Trivia.id).Nodup
  tu_usuario : ∀ a ∈ db.trivia_usuarios, ∃ u ∈ db.usuarios, u.id = a.usuario_id
  tu_trivia : ∀ a ∈ db.trivia_usuarios, ∃ t ∈ db.trivias, t.id = a.trivia_id
  tu_unique : db.trivia_usuarios.Pairwise
    (fun a b => a.trivia_id = b.trivia_id → a.usuario_id ≠ b.usuario_id)
  part_unique : db.participaciones.Pairwise (fun p1 p2 => p1.triple ≠ p2.triple)
  part_trivia : ∀ p ∈ db.participaciones, ∃ t ∈ db.trivias, t.id = p.trivia_id
  part_tu : ∀ p ∈ db.participaciones, ∃ a ∈ db.trivia_usuarios,
    a.trivia_id = p.trivia_id ∧ a.usuario_id = p.usuario_id
  part_tp : ∀ p ∈ db.participaciones, ∃ a ∈ db.trivia_preguntas,
    a.trivia_id = p.trivia_id ∧ a.pregunta_id = p.pregunta_id

/-- The fresh database satisfies the invariants. -/
theorem inv_empty : DBInv DB.empty := by
  constructor <;> simp [DB.empty]

/-- The handler `crear_usuario` preserves the invariants. -/
theorem inv_crear_usuario {u : UsuarioCreate} {db db' : DB} {r : Usuario}
    (h : crear_usuario u db = .ok db' r) (hi : DBInv db) : DBInv db' := by
  obtain ⟨-, hr, hdb⟩ := crear_usuario_ok_inv h
  subst hdb
  refine
    { usuarios_lt := ?_, usuarios_nodup := ?_, preguntas_lt := hi.preguntas_lt
      preguntas_nodup := hi.preguntas_nodup, trivias_lt := hi.trivias_lt
      trivias_nodup := hi.trivias_nodup, tu_usuario := ?_, tu_trivia := hi.tu_trivia
      tu_unique := hi.tu_unique, part_unique := hi.part_unique
      part_trivia := hi.part_trivia, part_tu := hi.part_tu, part_tp := hi.part_tp }
  · intro x hx
    rcases List.mem_append.1 hx with hx | hx
    · have := hi.usuarios_lt x hx
      simp only [DB.next_usuario_id]
      omega
    · simp at hx
      subst hx
      subst hr
      simp
  · simp only [List.map_append, DB.usuarios]
    rw [List.nodup_append]
    refine ⟨hi.usuarios_nodup, by simp, ?_⟩
    intro y hy hy'
    obtain ⟨x, hx, hxid⟩ := List.mem_map.1 hy
    have := hi.usuarios_lt x hx
    simp [hr] at hy'
    omega
  · intro a ha
    obtain ⟨u', hu', hid⟩ := hi.tu_usuario a ha
    exact ⟨u', List.mem_append_left _ hu', hid⟩

/-- The handler `crear_pregunta` preserves the invariants. -/
theorem inv_crear_pregunta {q : PreguntaCreate} {db db' : DB} {r : Pregunta}
    (h : crear_pregunta q db = .ok db' r) (hi : DBInv db) : DBInv db' := by
  obtain ⟨hr, hdb⟩ := crear_pregunta_ok_inv h
  subst hdb
  refine
    { usuarios_lt := hi.usuarios_lt, usuarios_nodup := hi.usuarios_nodup
      preguntas_lt := ?_, preguntas_nodup := ?_, trivias_lt := hi.trivias_lt
      trivias_nodup := hi.trivias_nodup, tu_usuario := hi.tu_usuario
      tu_trivia := hi.tu_trivia, tu_unique := hi.tu_unique
      part_unique := hi.part_unique, part_trivia := hi.part_trivia
      part_tu := hi.part_tu, part_tp := hi.part_tp }
  · intro x hx
    rcases List.mem_append.1 hx with hx | hx
    · have := hi.preguntas_lt x hx
      simp only [DB.next_pregunta_id]
      omega
    · simp at hx
      subst hx
      subst hr
      simp
  · simp only [List.map_append, DB.preguntas]
    rw [List.nodup_append]
    refine ⟨hi.preguntas_nodup, by simp, ?_⟩
    intro y hy hy'
    obtain ⟨x, hx, hxid⟩ := List.mem_map.1 hy
    have := hi.preguntas_lt x hx
    simp [hr] at hy'
    omega

/-- The handler `crear_trivia` preserves the invariants: a successful creation implies
(via the length checks) that the submitted id lists are duplicate-free and
fully resolved. -/
theorem inv_crear_trivia {t : TriviaCreate} {db db' : DB} {r : Trivia}
    (h : crear_trivia t db = .ok db' r) (hi : DBInv db) : DBInv db' := by
  obtain ⟨hp, hu, hr, hdb⟩ := crear_trivia_ok_inv h
  subst hdb
  obtain ⟨hpnodup, hpex⟩ :=
    (filter_contains_length_eq_iff Pregunta.id db.preguntas t.pregunta_ids
      hi.preguntas_nodup).1 hp
  obtain ⟨hunodup, huex⟩ :=
    (filter_contains_length_eq_iff Usuario.id db.usuarios t.usuario_ids
      hi.usuarios_nodup).1 hu
  refine
    { usuarios_lt := hi.usuarios_lt, usuarios_nodup := hi.usuarios_nodup
      preguntas_lt := hi.preguntas_lt, preguntas_nodup := hi.preguntas_nodup
      trivias_lt := ?_, trivias_nodup := ?_, tu_usuario := ?_, tu_trivia := ?_
      tu_unique := ?_, part_unique := hi.part_unique, part_trivia := ?_
      part_tu := ?_, part_tp := ?_ }
  · intro x hx
    rcases List.mem_append.1 hx with hx | hx
    · have := hi.trivias_lt x hx
      simp only [DB.next_trivia_id]
      omega
    · simp at hx
      subst hx
      subst hr
      simp
  · simp only [List.map_append, DB.trivias]
    rw [List.nodup_append]
    refine ⟨hi.trivias_nodup, by simp, ?_⟩
    intro y hy hy'
    obtain ⟨x, hx, hxid⟩ := List.mem_map.1 hy
    have := hi.trivias_lt x hx
    simp [hr] at hy'
    omega
  · intro a ha
    rcases List.mem_append.1 ha with ha | ha
    · exact hi.tu_usuario a ha
    · obtain ⟨uid, huid, hmk⟩ := List.mem_map.1 ha
      obtain ⟨u', hu', hid⟩ := huex uid huid
      refine ⟨u', hu', ?_⟩
      rw [← hmk]
      exact hid
  · intro a ha
    rcases List.mem_append.1 ha with ha | ha
    · obtain ⟨t', ht', hid⟩ := hi.tu_trivia a ha
      exact ⟨t', List.mem_append_left _ ht', hid⟩
    · obtain ⟨uid, huid, hmk⟩ := List.mem_map.1 ha
      refine ⟨r, List.mem_append_right _ (by simp), ?_⟩
      rw [← hmk]
      simp [hr]
  · rw [List.pairwise_append]
    refine ⟨hi.tu_unique, ?_, ?_⟩
    · rw [List.pairwise_map]
      refine hunodup.imp ?_
      intro a b hab _
      exact hab
    · intro a ha b hb heq
      exfalso
      obtain ⟨t', ht', hid⟩ := hi.tu_trivia a ha
      have hlt := hi.trivias_lt t' ht'
      obtain ⟨uid, huid, hmk⟩ := List.mem_map.1 hb
      rw [← hmk] at heq
      simp at heq
      omega
  · intro p hp
    obtain ⟨t', ht', hid⟩ := hi.part_trivia p hp
    exact ⟨t', List.mem_append_left _ ht', hid⟩
  · intro p hp
    obtain ⟨a, ha, hid⟩ := hi.part_tu p hp
    exact ⟨a, List.mem_append_left _ ha, hid⟩
  · intro p hp
    obtain ⟨a, ha, hid⟩ := hi.part_tp p hp
    exact ⟨a, List.mem_append_left _ ha, hid⟩

/-- The handler `responder_pregunta` preserves the invariants: the duplicate check keeps
the (user, trivia, question) triples unique, and the three membership checks
justify the new row's references. -/
theorem inv_responder {tid : Nat} {pc : ParticipacionCreate} {db db' : DB}
    {r : Participacion} (h : responder_pregunta tid pc db = .ok db' r)
    (hi : DBInv db) : DBInv db' := by
  obtain ⟨hT, hA, hP, hdup, -, hru, hrt, hrp, hdb⟩ := responder_ok_inv h
  subst hdb
  refine
    { usuarios_lt := hi.usuarios_lt, usuarios_nodup := hi.usuarios_nodup
      preguntas_lt := hi.preguntas_lt, preguntas_nodup := hi.preguntas_nodup
      trivias_lt := hi.trivias_lt, trivias_nodup := hi.trivias_nodup
      tu_usuario := hi.tu_usuario, tu_trivia := hi.tu_trivia
      tu_unique := hi.tu_unique
      part_unique := ?_, part_trivia := ?_, part_tu := ?_, part_tp := ?_ }
  · rw [List.pairwise_append]
    refine ⟨hi.part_unique, by simp, ?_⟩
    intro p hp b hb
    simp at hb
    subst hb
    intro htr
    simp only [Participacion.triple, Prod.mk.injEq] at htr
    exact hdup p hp ⟨by omega, by omega, by omega⟩
  · intro p hp
    rcases List.mem_append.1 hp with hp | hp
    · exact hi.part_trivia p hp
    · simp at hp
      subst hp
      obtain ⟨t', ht', hid⟩ := hT
      exact ⟨t', ht', by omega⟩
  · intro p hp
    rcases List.mem_append.1 hp with hp | hp
    · exact hi.part_tu p hp
    · simp at hp
      subst hp
      obtain ⟨a, ha, hid1, hid2⟩ := hA
      exact ⟨a, ha, by omega, by omega⟩
  · intro p hp
    rcases List.mem_append.1 hp with hp | hp
    · exact hi.part_tp p hp
    · simp at hp
      subst hp
      obtain ⟨a, ha, hid1, hid2⟩ := hP
      exact ⟨a, ha, by omega, by omega⟩

/-- Every single request preserves the invariants. -/
theorem inv_step {db db' : DB} (h : Step db db') (hi : DBInv db) : DBInv db' := by
  cases h with
  | usuario h => exact inv_crear_usuario h hi
  | pregunta h => exact inv_crear_pregunta h hi
  | trivia h => exact inv_crear_trivia h hi
  | responder h => exact inv_responder h hi

/-- Every reachable store satisfies the invariants. -/
theorem inv_reachable {db : DB} (h : Reachable db) : DBInv db := by
  induction h with
  | init => exact inv_empty
  | step _ hstep ih => exact inv_step hstep ih

/-! ### Concrete example run (used to instantiate the theorems) -/

/-- Example user registration request. -/
def exUsuarioCreate : UsuarioCreate := { nombre := "Ana", email := "ana@example.com" }

/-- Example question creation request. -/
def exPreguntaCreate : PreguntaCreate :=
  { texto_pregunta := "¿Capital de Chile?"
    opciones := [("A", "Lima"), ("B", "Santiago")]
    respuesta_correcta := "B", dificultad := "medio" }

/-- Example trivia creation request. -/
def exTriviaCreate : TriviaCreate :=
  { nombre := "Trivia RRHH", descripcion := none, pregunta_ids := [1], usuario_ids := [1] }

/-- Example answer submission body. -/
def exParticipacionCreate : ParticipacionCreate :=
  { usuario_id := 1, trivia_id := 1, pregunta_id := 1, respuesta_dada := "B" }

/-- The user row created by the example registration. -/
def exUsuario : Usuario := { id := 1, nombre := "Ana", email := "ana@example.com" }

/-- The question row created by the example question request. -/
def exPregunta : Pregunta :=
  { id := 1, texto_pregunta := "¿Capital de Chile?"
    opciones := [("A", "Lima"), ("B", "Santiago")]
    respuesta_correcta := "B", dificultad := "medio" }

/-- The trivia row created by the example trivia request. -/
def exTrivia : Trivia := { id := 1, nombre := "Trivia RRHH", descripcion := none }

/-- The participation row created by the example submission (correct answer,
medium difficulty, hence 2 points). -/
def exParticipacion : Participacion :=
  { id := 1, usuario_id := 1, trivia_id := 1, pregunta_id := 1
    respuesta_dada := "B", es_correcta := 1, puntaje_obtenido := 2 }

/-- Store after the example registration. -/
def exDB1 : DB := { DB.empty with usuarios := [exUsuario], next_usuario_id := 2 }

/-- Store after the example question creation. -/
def exDB2 : DB := { exDB1 with preguntas := [exPregunta], next_pregunta_id := 2 }

/-- Store after the example trivia creation. -/
def exDB3 : DB :=
  { exDB2 with trivias := [exTrivia]
               trivia_preguntas := [{ trivia_id := 1, pregunta_id := 1 }]
               trivia_usuarios := [{ trivia_id := 1, usuario_id := 1 }]
               next_trivia_id := 2 }

/-- Store after the example answer submission. -/
def exDB4 : DB :=
  { exDB3 with participaciones := [exParticipacion], next_participacion_id := 2 }

/-- The example run is a genuine execution of the API. -/
theorem exDB4_reachable : Reachable exDB4 := by
  have h1 : crear_usuario exUsuarioCreate DB.empty = .ok exDB1 exUsuario := by decide
  have h2 : crear_pregunta exPreguntaCreate exDB1 = .ok exDB2 exPregunta := by decide
  have h3 : crear_trivia exTriviaCreate exDB2 = .ok exDB3 exTrivia := by decide
  have h4 : responder_pregunta 1 exParticipacionCreate exDB3 = .ok exDB4 exParticipacion := by
    decide
  exact ((((Reachable.init).step (.usuario h1)).step (.pregunta h2)).step
    (.trivia h3)).step (.responder h4)

/-! ### Claims -/

/-- C1: for every accepted answer submission, `es_correcta` is 1 exactly when
the submitted answer equals the question's `respuesta_correcta` under exact,
case-sensitive string equality (0 otherwise), and the awarded points are
1 for fácil, 2 for medio, 3 for difícil when the answer is correct (0 for an
unrecognized difficulty) and always 0 when the answer is incorrect. -/
theorem c1_scoring {trivia_id : Nat} {pc : ParticipacionCreate} {db db' : DB}
    {r : Participacion} {q : Pregunta}
    (hq : db.preguntas.find? (fun x => x.id == pc.pregunta_id) = some q)
    (hok : responder_pregunta trivia_id pc db = .ok db' r) :
    (r.es_correcta = 1 ↔ pc.respuesta_dada = q.respuesta_correcta) ∧
    (r.es_correcta = 0 ↔ pc.respuesta_dada ≠ q.respuesta_correcta) ∧
    r.puntaje_obtenido =
      (if pc.respuesta_dada = q.respuesta_correcta then
        (if q.dificultad = "fácil" then 1
         else if q.dificultad = "medio" then 2
         else if q.dificultad = "difícil" then 3 else 0)
      else 0) := by
  unfold responder_pregunta at hok
  split at hok
  · cases hok
  · split at hok
    · cases hok
    · split at hok
      · cases hok
      · split at hok
        · cases hok
        · split at hok
          · cases hok
          · next q1 hq1 =>
            rw [hq] at hq1
            injection hq1 with hq1
            subst hq1
            cases hok
            refine ⟨?_, ?_, ?_⟩
            · by_cases hc : pc.respuesta_dada = q.respuesta_correcta <;> simp [hc]
            · by_cases hc : pc.respuesta_dada = q.respuesta_correcta <;> simp [hc]
            · by_cases hc : pc.respuesta_dada = q.respuesta_correcta <;>
                simp [hc, puntajes, beq_iff_eq]

/-- Witness for C1 at the example run: the answer "B" to the medium question
is correct and awards 2 points. -/
theorem c1_scoring_witness :
    (exParticipacion.es_correcta = 1 ↔
      exParticipacionCreate.respuesta_dada = exPregunta.respuesta_correcta) ∧
    (exParticipacion.es_correcta = 0 ↔
      exParticipacionCreate.respuesta_dada ≠ exPregunta.respuesta_correcta) ∧
    exParticipacion.puntaje_obtenido =
      (if exParticipacionCreate.respuesta_dada = exPregunta.respuesta_correcta then
        (if exPregunta.dificultad = "fácil" then 1
         else if exPregunta.dificultad = "medio" then 2
         else if exPregunta.dificultad = "difícil" then 3 else 0)
      else 0) := by
  have hq : exDB3.preguntas.find?
      (fun x => x.id == exParticipacionCreate.pregunta_id) = some exPregunta := by decide
  have hok : responder_pregunta 1 exParticipacionCreate exDB3 = .ok exDB4 exParticipacion := by
    decide
  exact c1_scoring hq hok

/-- C2: the four preconditions of answer submission are checked in a fixed
order, each with its own error: trivia existence (404), user assignment
(403), question membership (400), duplicate answer (400) — the first
violated precondition in this order is the one reported. -/
theorem c2_orden_validaciones (db : DB) (trivia_id : Nat) (pc : ParticipacionCreate) :
    (db.trivias.find? (fun x => x.id == trivia_id) = none →
      responder_pregunta trivia_id pc db =
        .err db 404 (triviaNotFoundMsg trivia_id)) ∧
    ((db.trivias.find? (fun x => x.id == trivia_id)).isSome →
      db.trivia_usuarios.find?
          (fun a => a.trivia_id == trivia_id && a.usuario_id == pc.usuario_id) = none →
      responder_pregunta trivia_id pc db =
        .err db 403 "El usuario no está asignado a esta trivia") ∧
    ((db.trivias.find? (fun x => x.id == trivia_id)).isSome →
      (db.trivia_usuarios.find?
          (fun a => a.trivia_id == trivia_id && a.usuario_id == pc.usuario_id)).isSome →
      db.trivia_preguntas.find?
          (fun tp => tp.trivia_id == trivia_id && tp.pregunta_id == pc.pregunta_id) = none →
      responder_pregunta trivia_id pc db =
        .err db 400 "La pregunta no pertenece a esta trivia") ∧
    ((db.trivias.find? (fun x => x.id == trivia_id)).isSome →
      (db.trivia_usuarios.find?
          (fun a => a.trivia_id == trivia_id && a.usuario_id == pc.usuario_id)).isSome →
      (db.trivia_preguntas.find?
          (fun tp => tp.trivia_id == trivia_id && tp.pregunta_id == pc.pregunta_id)).isSome →
      (db.participaciones.find?
          (fun p => p.usuario_id == pc.usuario_id && p.trivia_id == trivia_id &&
            p.pregunta_id == pc.pregunta_id)).isSome →
      responder_pregunta trivia_id pc db =
        .err db 400 "Ya has respondido esta pregunta") := by
  refine ⟨?_, ?_, ?_, ?_⟩
  · intro h1
    unfold responder_pregunta
    rw [h1]
  · intro h1 h2
    obtain ⟨t1, ht1⟩ := Option.isSome_iff_exists.1 h1
    unfold responder_pregunta
    rw [ht1, h2]
  · intro h1 h2 h3
    obtain ⟨t1, ht1⟩ := Option.isSome_iff_exists.1 h1
    obtain ⟨a1, ha1⟩ := Option.isSome_iff_exists.1 h2
    unfold responder_pregunta
    rw [ht1, ha1, h3]
  · intro h1 h2 h3 h4
    obtain ⟨t1, ht1⟩ := Option.isSome_iff_exists.1 h1
    obtain ⟨a1, ha1⟩ := Option.isSome_iff_exists.1 h2
    obtain ⟨b1, hb1⟩ := Option.isSome_iff_exists.1 h3
    obtain ⟨p1, hp1⟩ := Option.isSome_iff_exists.1 h4
    unfold responder_pregunta
    rw [ht1, ha1, hb1, hp1]

/-- Witness for C2: the four error situations realized on concrete stores
(empty store; trivia without assignment; assignment without the question;
question already answered). -/
theorem c2_orden_validaciones_witness :
    responder_pregunta 1 exParticipacionCreate DB.empty =
      .err DB.empty 404 (triviaNotFoundMsg 1) ∧
    responder_pregunta 1 exParticipacionCreate
        { DB.empty with trivias := [exTrivia], next_trivia_id := 2 } =
      .err { DB.empty with trivias := [exTrivia], next_trivia_id := 2 }
        403 "El usuario no está asignado a esta trivia" ∧
    responder_pregunta 1 exParticipacionCreate
        { DB.empty with trivias := [exTrivia]
                        trivia_usuarios := [{ trivia_id := 1, usuario_id := 1 }]
                        next_trivia_id := 2 } =
      .err { DB.empty with trivias := [exTrivia]
                           trivia_usuarios := [{ trivia_id := 1, usuario_id := 1 }]
                           next_trivia_id := 2 }
        400 "La pregunta no pertenece a esta trivia" ∧
    responder_pregunta 1 exParticipacionCreate exDB4 =
      .err exDB4 400 "Ya has respondido esta pregunta" := by
  refine ⟨?_, ?_, ?_, ?_⟩
  · exact (c2_orden_validaciones DB.empty 1 exParticipacionCreate).1 (by decide)
  · exact (c2_orden_validaciones _ 1 exParticipacionCreate).2.1 (by decide) (by decide)
  · exact (c2_orden_validaciones _ 1 exParticipacionCreate).2.2.1
      (by decide) (by decide) (by decide)
  · exact (c2_orden_validaciones exDB4 1 exParticipacionCreate).2.2.2
      (by decide) (by decide) (by decide) (by decide)

/-- Whether a result is an HTTP 409 Conflict (the spec taxonomy's
`ConflictError`). -/
def ApiResult.isConflict {α : Type} : ApiResult α → Bool
  | .err _ c _ => c == 409
  | _ => false

/-- A second registration request reusing the example email. -/
def exUsuarioCreateDup : UsuarioCreate := { nombre := "Bea", email := "ana@example.com" }

/-- Counterexample to C7 as stated: re-registering an already used email is
rejected with HTTP 400 (Bad Request), not with a 409 Conflict. -/
theorem c7_counterexample :
    (crear_usuario exUsuarioCreateDup exDB1).isConflict = false ∧
    crear_usuario exUsuarioCreateDup exDB1 =
      .err exDB1 400 "El email ya está registrado" := by
  constructor
  · decide
  · decide

/-- C7 (amended): duplicate email is rejected with HTTP 400 and the store is
unchanged (no new user row); a fresh email succeeds and the response carries
the generated id. -/
theorem c7_email_duplicado (db : DB) (u : UsuarioCreate) :
    ((∃ x ∈ db.usuarios, x.email = u.email) →
      crear_usuario u db = .err db 400 "El email ya está registrado") ∧
    ((∀ x ∈ db.usuarios, x.email ≠ u.email) →
      ∃ db', crear_usuario u db =
          .ok db' { id := db.next_usuario_id, nombre := u.nombre, email := u.email } ∧
        db'.usuarios = db.usuarios ++
          [{ id := db.next_usuario_id, nombre := u.nombre, email := u.email }]) := by
  cases hfind : db.usuarios.find? (fun x => x.email == u.email) with
  | some y =>
    have hy := List.find?_some hfind
    have hymem := List.mem_of_find?_eq_some hfind
    simp only [beq_iff_eq] at hy
    constructor
    · intro _
      unfold crear_usuario
      rw [hfind]
    · intro hall
      exact absurd hy (hall y hymem)
  | none =>
    constructor
    · rintro ⟨x, hx, hmail⟩
      have := List.find?_eq_none.1 hfind x hx
      simp [hmail] at this
    · intro _
      unfold crear_usuario
      rw [hfind]
      exact ⟨_, rfl, rfl⟩

/-- Witness for C7 (amended): both branches realized concretely. -/
theorem c7_email_duplicado_witness :
    crear_usuario exUsuarioCreateDup exDB1 =
      .err exDB1 400 "El email ya está registrado" ∧
    ∃ db', crear_usuario exUsuarioCreate DB.empty = .ok db' exUsuario ∧
      db'.usuarios = DB.empty.usuarios ++ [exUsuario] := by
  constructor
  · exact (c7_email_duplicado exDB1 exUsuarioCreateDup).1
      ⟨exUsuario, by decide, by decide⟩
  · exact (c7_email_duplicado DB.empty exUsuarioCreate).2 (by decide)

/-- C8: the user-score endpoint never fails, whatever the (trivia, user)
pair — there is no existence or membership check — and it returns the sums
over the matching participation rows, all zero when there are none. -/
theorem c8_puntaje_nunca_falla (db : DB) (trivia_id usuario_id : Nat) :
    ∃ r : PuntajeResponse,
      obtener_puntaje_usuario trivia_id usuario_id db = .ok db r ∧
      r.usuario_id = usuario_id ∧ r.trivia_id = trivia_id ∧
      r.puntaje_total = ((db.participaciones.filter
          (fun p => p.trivia_id == trivia_id && p.usuario_id == usuario_id)).map
          Participacion.puntaje_obtenido).sum ∧
      r.total_respuestas = (db.participaciones.filter
          (fun p => p.trivia_id == trivia_id && p.usuario_id == usuario_id)).length ∧
      r.respuestas_correctas = (db.participaciones.filter
          (fun p => p.trivia_id == trivia_id && p.usuario_id == usuario_id)).countP
          (fun p => p.es_correcta == 1) ∧
      ((∀ p ∈ db.participaciones,
          ¬(p.trivia_id = trivia_id ∧ p.usuario_id = usuario_id)) →
        r.puntaje_total = 0 ∧ r.total_respuestas = 0 ∧ r.respuestas_correctas = 0) := by
  refine ⟨_, rfl, rfl, rfl, rfl, rfl, rfl, ?_⟩
  intro hnone
  have hempty : db.participaciones.filter
      (fun p => p.trivia_id == trivia_id && p.usuario_id == usuario_id) = [] := by
    rw [List.filter_eq_nil_iff]
    intro p hp
    have := hnone p hp
    simp only [Bool.and_eq_true, beq_iff_eq]
    tauto
  refine ⟨?_, ?_, ?_⟩ <;> simp [hempty]

/-- Witness for C8: for a trivia id and user id that do not exist at all the
endpoint still answers, with the all-zero score. -/
theorem c8_puntaje_nunca_falla_witness :
    obtener_puntaje_usuario 5 7 DB.empty =
      .ok DB.empty { usuario_id := 7, trivia_id := 5, puntaje_total := 0
                     total_respuestas := 0, respuestas_correctas := 0 } := by
  obtain ⟨r, h1, h2, h3, -, -, -, h7⟩ := c8_puntaje_nunca_falla DB.empty 5 7
  obtain ⟨hz1, hz2, hz3⟩ := h7 (by intro p hp; simp [DB.empty] at hp)
  obtain ⟨a, b, c, d, e⟩ := r
  simp only at h2 h3 hz1 hz2 hz3
  subst h2
  subst h3
  subst hz1
  subst hz2
  subst hz3
  exact h1

/-- C4: if any submitted question id or user id does not resolve to an
existing row (ids being primary keys, the stores are duplicate-free), trivia
creation fails with HTTP 400 — and, the error carrying the untouched store,
no trivia row and no link row from the request exists afterwards. -/
theorem c4_creacion_atomica (db : DB) (t : TriviaCreate)
    (hpnodup : (db.preguntas.map Pregunta.id).Nodup)
    (hunodup : (db.usuarios.map Usuario.id).Nodup)
    (hmiss : (∃ x ∈ t.pregunta_ids, ∀ q ∈ db.preguntas, q.id ≠ x) ∨
             (∃ x ∈ t.usuario_ids, ∀ u ∈ db.usuarios, u.id ≠ x)) :
    crear_trivia t db = .err db 400 "Alguna pregunta no existe" ∨
    crear_trivia t db = .err db 400 "Algún usuario no existe" := by
  unfold crear_trivia
  dsimp only []
  split
  · exact Or.inl rfl
  · next h1 =>
    split
    · exact Or.inr rfl
    · next h2 =>
      exfalso
      obtain ⟨-, hpex⟩ := (filter_contains_length_eq_iff Pregunta.id db.preguntas
        t.pregunta_ids hpnodup).1 (of_not_not h1)
      obtain ⟨-, huex⟩ := (filter_contains_length_eq_iff Usuario.id db.usuarios
        t.usuario_ids hunodup).1 (of_not_not h2)
      rcases hmiss with ⟨x, hx, hnone⟩ | ⟨x, hx, hnone⟩
      · obtain ⟨q, hq, hqid⟩ := hpex x hx
        exact hnone q hq hqid
      · obtain ⟨u, hu, huid⟩ := huex x hx
        exact hnone u hu huid

/-- A trivia request naming the nonexistent question 999. -/
def exTriviaCreate999 : TriviaCreate :=
  { nombre := "Trivia rota", descripcion := none, pregunta_ids := [1, 999]
    usuario_ids := [1] }

/-- Witness for C4: question id 999 does not exist in the example store, so
creation fails with 400 and the store is returned unchanged. -/
theorem c4_creacion_atomica_witness :
    crear_trivia exTriviaCreate999 exDB2 =
      .err exDB2 400 "Alguna pregunta no existe" := by
  have h := c4_creacion_atomica exDB2 exTriviaCreate999 (by decide) (by decide)
    (Or.inl ⟨999, by decide, by decide⟩)
  rcases h with h | h
  · exact h
  · exact absurd h (by decide)

/-- C9: a duplicated id inside `pregunta_ids` or `usuario_ids` makes trivia
creation fail with HTTP 400 even when every listed id exists, because each
check compares the number of distinct matching rows with the length of the
submitted list. -/
theorem c9_ids_duplicados (db : DB) (t : TriviaCreate)
    (hpnodup : (db.preguntas.map Pregunta.id).Nodup)
    (hunodup : (db.usuarios.map Usuario.id).Nodup)
    (hdup : ¬t.pregunta_ids.Nodup ∨ ¬t.usuario_ids.Nodup) :
    crear_trivia t db = .err db 400 "Alguna pregunta no existe" ∨
    crear_trivia t db = .err db 400 "Algún usuario no existe" := by
  unfold crear_trivia
  dsimp only []
  split
  · exact Or.inl rfl
  · next h1 =>
    split
    · exact Or.inr rfl
    · next h2 =>
      exfalso
      have hpn := ((filter_contains_length_eq_iff Pregunta.id db.preguntas
        t.pregunta_ids hpnodup).1 (of_not_not h1)).1
      have hun := ((filter_contains_length_eq_iff Usuario.id db.usuarios
        t.usuario_ids hunodup).1 (of_not_not h2)).1
      tauto

/-- A trivia request repeating the (existing) question id 1. -/
def exTriviaCreateDup : TriviaCreate :=
  { nombre := "Trivia doble", descripcion := none, pregunta_ids := [1, 1]
    usuario_ids := [1] }

/-- Witness for C9: question 1 and user 1 exist, yet the duplicated question
id makes creation fail with 400. -/
theorem c9_ids_duplicados_witness :
    crear_trivia exTriviaCreateDup exDB2 =
      .err exDB2 400 "Alguna pregunta no existe" := by
  have h := c9_ids_duplicados exDB2 exTriviaCreateDup (by decide) (by decide)
    (Or.inl (by decide))
  rcases h with h | h
  · exact h
  · exact absurd h (by decide)

/-- C10: the answer-submission handler never reads the body's `trivia_id`:
replacing it changes nothing in the result (validation outcome, scoring and
committed store included), and the persisted row stores the path parameter. -/
theorem c10_body_trivia_id_ignorado (db : DB) (trivia_id : Nat)
    (pc : ParticipacionCreate) (tid1 tid2 : Nat) :
    responder_pregunta trivia_id { pc with trivia_id := tid1 } db =
      responder_pregunta trivia_id { pc with trivia_id := tid2 } db ∧
    (∀ db' r, responder_pregunta trivia_id pc db = .ok db' r →
      r.trivia_id = trivia_id) := by
  constructor
  · rfl
  · intro db' r h
    exact (responder_ok_inv h).2.2.2.2.2.2.1

/-- Witness for C10: two submissions differing only in the body's
`trivia_id` (42 vs 7) coincide, and the stored row carries the path id 1. -/
theorem c10_body_trivia_id_ignorado_witness :
    responder_pregunta 1 { exParticipacionCreate with trivia_id := 42 } exDB3 =
      responder_pregunta 1 { exParticipacionCreate with trivia_id := 7 } exDB3 ∧
    exParticipacion.trivia_id = 1 := by
  have h := c10_body_trivia_id_ignorado exDB3 1 exParticipacionCreate 42 7
  refine ⟨h.1, ?_⟩
  have hok : responder_pregunta 1 exParticipacionCreate exDB3 = .ok exDB4 exParticipacion := by
    decide
  exact h.2 exDB4 exParticipacion hok

/-- Stores that agree on everything except possibly the questions'
`respuesta_correcta` and `dificultad` columns. -/
def sameVisible (db1 db2 : DB) : Prop :=
  db1.usuarios = db2.usuarios ∧ db1.trivias = db2.trivias ∧
  db1.trivia_preguntas = db2.trivia_preguntas ∧
  db1.trivia_usuarios = db2.trivia_usuarios ∧
  db1.participaciones = db2.participaciones ∧
  List.Forall₂ (fun q1 q2 : Pregunta =>
    q1.id = q2.id ∧ q1.texto_pregunta = q2.texto_pregunta ∧ q1.opciones = q2.opciones)
    db1.preguntas db2.preguntas

/-- Looking up a question and projecting it to the player view depends only
on the visible columns. -/
theorem find?_proj_congr {l1 l2 : List Pregunta}
    (h : List.Forall₂ (fun q1 q2 : Pregunta =>
      q1.id = q2.id ∧ q1.texto_pregunta = q2.texto_pregunta ∧ q1.opciones = q2.opciones)
      l1 l2) (pid : Nat) :
    (l1.find? (fun q => q.id == pid)).map
        (fun pregunta => PreguntaJugador.mk pregunta.id pregunta.texto_pregunta
          pregunta.opciones) =
    (l2.find? (fun q => q.id == pid)).map
        (fun pregunta => PreguntaJugador.mk pregunta.id pregunta.texto_pregunta
          pregunta.opciones) := by
  induction h with
  | nil => rfl
  | @cons a b l1' l2' hrel htail ih =>
    obtain ⟨hid, htx, hop⟩ := hrel
    rw [List.find?_cons, List.find?_cons]
    rw [show (a.id == pid) = (b.id == pid) by rw [hid]]
    cases hpb : (b.id == pid)
    · simpa using ih
    · simp [hid, htx, hop]

/-- C5: the player view fails with 404 when the user is not assigned to the
trivia; on success every returned item is built from a question of the trivia
and carries only its id, text and options; and the output is unchanged under
any modification of the questions' `respuesta_correcta` and `dificultad`
(neither field can leak). -/
theorem c5_vista_jugador (db db2 : DB) (trivia_id usuario_id : Nat) :
    (db.trivia_usuarios.find?
        (fun a => a.trivia_id == trivia_id && a.usuario_id == usuario_id) = none →
      ver_trivia_jugador trivia_id usuario_id db =
        .err db 404 "El usuario no está asignado a esta trivia") ∧
    ((db.trivia_usuarios.find?
        (fun a => a.trivia_id == trivia_id && a.usuario_id == usuario_id)).isSome →
      ∃ l, ver_trivia_jugador trivia_id usuario_id db = .ok db l ∧
        ∀ item ∈ l, ∃ q ∈ db.preguntas,
          item = { id := q.id, texto_pregunta := q.texto_pregunta
                   opciones := q.opciones } ∧
          ∃ tp ∈ db.trivia_preguntas, tp.trivia_id = trivia_id ∧
            tp.pregunta_id = q.id) ∧
    (sameVisible db db2 →
      (ver_trivia_jugador trivia_id usuario_id db).outcome =
        (ver_trivia_jugador trivia_id usuario_id db2).outcome) := by
  refine ⟨?_, ?_, ?_⟩
  · intro h
    unfold ver_trivia_jugador
    rw [h]
  · intro h
    obtain ⟨a1, ha1⟩ := Option.isSome_iff_exists.1 h
    refine ⟨(db.trivia_preguntas.filter (fun tp => tp.trivia_id == trivia_id)).filterMap
        (fun tp => (db.preguntas.find? (fun q => q.id == tp.pregunta_id)).map
          (fun pregunta => { id := pregunta.id
                             texto_pregunta := pregunta.texto_pregunta
                             opciones := pregunta.opciones })), ?_, ?_⟩
    · unfold ver_trivia_jugador
      rw [ha1]
    · intro item hitem
      obtain ⟨tp, htp, heq⟩ := List.mem_filterMap.1 hitem
      obtain ⟨q, hq, hgq⟩ := Option.map_eq_some'.1 heq
      have hqmem := List.mem_of_find?_eq_some hq
      have hqid : q.id = tp.pregunta_id := by simpa using List.find?_some hq
      have htpm := List.mem_filter.1 htp
      refine ⟨q, hqmem, hgq.symm, tp, htpm.1, ?_, hqid.symm⟩
      simpa using htpm.2
  · rintro ⟨hu, ht, htp, htu, hpart, hq⟩
    unfold ver_trivia_jugador
    rw [htu]
    cases hfind : db2.trivia_usuarios.find?
        (fun a => a.trivia_id == trivia_id && a.usuario_id == usuario_id) with
    | none => rfl
    | some a1 =>
      dsimp only [ApiResult.outcome]
      congr 1
      rw [htp]
      apply List.filterMap_congr
      intro tp htpmem
      exact find?_proj_congr hq tp.pregunta_id

/-- The example store with the hidden columns of the question changed. -/
def exDB3oculto : DB :=
  { exDB3 with preguntas :=
      [{ exPregunta with respuesta_correcta := "A", dificultad := "difícil" }] }

/-- Witness for C5: unassigned user 2 gets the 404; assigned user 1 gets a
list; and changing the hidden columns leaves the output identical. -/
theorem c5_vista_jugador_witness :
    ver_trivia_jugador 1 2 exDB3 =
      .err exDB3 404 "El usuario no está asignado a esta trivia" ∧
    (∃ l, ver_trivia_jugador 1 1 exDB3 = .ok exDB3 l) ∧
    (ver_trivia_jugador 1 1 exDB3).outcome =
      (ver_trivia_jugador 1 1 exDB3oculto).outcome := by
  refine ⟨?_, ?_, ?_⟩
  · exact (c5_vista_jugador exDB3 exDB3 1 2).1 (by decide)
  · obtain ⟨l, hl, -⟩ := (c5_vista_jugador exDB3 exDB3 1 1).2.1 (by decide)
    exact ⟨l, hl⟩
  · exact (c5_vista_jugador exDB3 exDB3oculto 1 1).2.2
      ⟨rfl, rfl, rfl, rfl, rfl, .cons ⟨rfl, rfl, rfl⟩ .nil⟩

/-- C6: in every reachable store the (user, trivia, question) triples of the
`Participacion` rows are pairwise distinct; re-submitting an answer for an
already answered triple always hits the "already answered" 400 (whatever the
body's `trivia_id` and the new answer, and whether or not the first answer
was correct); and no operation other than `responder_pregunta` creates or
modifies `Participacion` rows. -/
theorem c6_participacion_unica (db : DB) (hr : Reachable db) :
    db.participaciones.Pairwise (fun p1 p2 => p1.triple ≠ p2.triple) ∧
    (∀ p ∈ db.participaciones, ∀ (body_tid : Nat) (ans : String),
      responder_pregunta p.trivia_id
        { usuario_id := p.usuario_id, trivia_id := body_tid
          pregunta_id := p.pregunta_id, respuesta_dada := ans } db =
        .err db 400 "Ya has respondido esta pregunta") ∧
    (∀ u db' r, crear_usuario u db = .ok db' r →
      db'.participaciones = db.participaciones) ∧
    (∀ q db' r, crear_pregunta q db = .ok db' r →
      db'.participaciones = db.participaciones) ∧
    (∀ t db' r, crear_trivia t db = .ok db' r →
      db'.participaciones = db.participaciones) ∧
    (∀ t u db' l, ver_trivia_jugador t u db = .ok db' l → db' = db) ∧
    (∀ t u db' s, obtener_puntaje_usuario t u db = .ok db' s → db' = db) ∧
    (∀ t db' s, obtener_ranking t db = .ok db' s → db' = db) := by
  have hi := inv_reachable hr
  refine ⟨hi.part_unique, ?_, ?_, ?_, ?_, ?_, ?_, ?_⟩
  · intro p hp body_tid ans
    obtain ⟨t1, ht1, htid⟩ := hi.part_trivia p hp
    obtain ⟨a1, ha1, ha1t, ha1u⟩ := hi.part_tu p hp
    obtain ⟨b1, hb1, hb1t, hb1p⟩ := hi.part_tp p hp
    obtain ⟨tv, htv⟩ := Option.isSome_iff_exists.1
      (List.find?_isSome.2 ⟨t1, ht1, by simp [htid]⟩ :
        (db.trivias.find? (fun x => x.id == p.trivia_id)).isSome)
    obtain ⟨av, hav⟩ := Option.isSome_iff_exists.1
      (List.find?_isSome.2 ⟨a1, ha1, by simp [ha1t, ha1u]⟩ :
        (db.trivia_usuarios.find? (fun a =>
          a.trivia_id == p.trivia_id && a.usuario_id == p.usuario_id)).isSome)
    obtain ⟨bv, hbv⟩ := Option.isSome_iff_exists.1
      (List.find?_isSome.2 ⟨b1, hb1, by simp [hb1t, hb1p]⟩ :
        (db.trivia_preguntas.find? (fun tp =>
          tp.trivia_id == p.trivia_id && tp.pregunta_id == p.pregunta_id)).isSome)
    obtain ⟨pv, hpv⟩ := Option.isSome_iff_exists.1
      (List.find?_isSome.2 ⟨p, hp, by simp⟩ :
        (db.participaciones.find? (fun x =>
          x.usuario_id == p.usuario_id && x.trivia_id == p.trivia_id &&
          x.pregunta_id == p.pregunta_id)).isSome)
    unfold responder_pregunta
    dsimp only []
    rw [htv, hav, hbv, hpv]
  · intro u db' r h
    obtain ⟨-, -, hdb⟩ := crear_usuario_ok_inv h
    subst hdb
    rfl
  · intro q db' r h
    obtain ⟨-, hdb⟩ := crear_pregunta_ok_inv h
    subst hdb
    rfl
  · intro t db' r h
    obtain ⟨-, -, -, hdb⟩ := crear_trivia_ok_inv h
    subst hdb
    rfl
  · intro t u db' l h
    unfold ver_trivia_jugador at h
    split at h
    · cases h
    · cases h
      rfl
  · intro t u db' s h
    unfold obtener_puntaje_usuario at h
    cases h
    rfl
  · intro t db' s h
    unfold obtener_ranking at h
    split at h
    · cases h
    · dsimp only [] at h
      split at h
      · cases h
      · cases h
        rfl

/-- Witness for C6 at the example run: the stored triples are distinct, and
re-answering question 1 (other answer, other body trivia_id) is rejected. -/
theorem c6_participacion_unica_witness :
    exDB4.participaciones.Pairwise (fun p1 p2 => p1.triple ≠ p2.triple) ∧
    responder_pregunta 1
        { usuario_id := 1, trivia_id := 99, pregunta_id := 1
          respuesta_dada := "A" } exDB4 =
      .err exDB4 400 "Ya has respondido esta pregunta" := by
  have h := c6_participacion_unica exDB4 exDB4_reachable
  refine ⟨h.1, ?_⟩
  exact h.2.1 exParticipacion (by decide) 99 "A"

/-! ### Ranking lemmas -/

/-- When every assignment resolves to an existing user, the ranking loop
completes (no `None` dereference). -/
theorem rankingEntries_isSome (db : DB) (tid : Nat) (asigs : List TriviaUsuario)
    (hall : ∀ a ∈ asigs, ∃ u ∈ db.usuarios, u.id = a.usuario_id) :
    (rankingEntries db tid asigs).isSome := by
  induction asigs with
  | nil => rfl
  | cons a rest ih =>
    obtain ⟨u, hu, hid⟩ := hall a (List.mem_cons_self a rest)
    obtain ⟨u1, hu1⟩ := Option.isSome_iff_exists.1
      (List.find?_isSome.2 ⟨u, hu, by simp [hid]⟩ :
        (db.usuarios.find? (fun x => x.id == a.usuario_id)).isSome)
    have htail := ih (fun b hb => hall b (List.mem_cons_of_mem a hb))
    obtain ⟨es, hes⟩ := Option.isSome_iff_exists.1 htail
    simp [rankingEntries, hu1, hes]

/-- The ranking loop produces one entry per assignment, in order, whose
total is the sum of the user's `puntaje_obtenido` in this trivia. -/
theorem rankingEntries_spec {db : DB} {tid : Nat} {asigs : List TriviaUsuario}
    {entries : List RankingEntry}
    (h : rankingEntries db tid asigs = some entries) :
    entries.map RankingEntry.usuario_id = asigs.map TriviaUsuario.usuario_id ∧
    ∀ e ∈ entries, e.puntaje_total =
      ((db.participaciones.filter
        (fun p => p.trivia_id == tid && p.usuario_id == e.usuario_id)).map
        Participacion.puntaje_obtenido).sum := by
  induction asigs generalizing entries with
  | nil =>
    simp only [rankingEntries, Option.some.injEq] at h
    subst h
    simp
  | cons a rest ih =>
    unfold rankingEntries at h
    split at h
    · cases h
    · next u hu =>
      split at h
      · cases h
      · next es hes =>
        cases h
        have hid : u.id = a.usuario_id := by simpa using List.find?_some hu
        obtain ⟨ih1, ih2⟩ := ih hes
        constructor
        · simp [ih1, hid]
        · intro e he
          rcases List.mem_cons.1 he with he | he
          · subst he
            rfl
          · exact ih2 e he

/-- The helper `addPositions` keeps the length. -/
theorem addPositions_length (n : Nat) (l : List RankingEntry) :
    (addPositions n l).length = l.length := by
  induction l generalizing n with
  | nil => rfl
  | cons e rest ih => simp [addPositions, ih]

/-- The positions assigned by `addPositions n` are `n, n+1, ...`. -/
theorem addPositions_map_posicion (n : Nat) (l : List RankingEntry) :
    (addPositions n l).map RankingItem.posicion = List.range' n l.length := by
  induction l generalizing n with
  | nil => rfl
  | cons e rest ih => simp [addPositions, List.range'_succ, ih]

/-- The helper `addPositions` keeps the user ids, in order. -/
theorem addPositions_map_usuario (n : Nat) (l : List RankingEntry) :
    (addPositions n l).map RankingItem.usuario_id = l.map RankingEntry.usuario_id := by
  induction l generalizing n with
  | nil => rfl
  | cons e rest ih => simp [addPositions, ih]

/-- Every produced ranking item comes from an entry, with the same user and
total. -/
theorem addPositions_mem {n : Nat} {l : List RankingEntry} {item : RankingItem}
    (h : item ∈ addPositions n l) :
    ∃ e ∈ l, item.usuario_id = e.usuario_id ∧ item.puntaje_total = e.puntaje_total := by
  induction l generalizing n with
  | nil => cases h
  | cons e rest ih =>
    rcases List.mem_cons.1 h with h | h
    · subst h
      exact ⟨e, List.mem_cons_self e rest, rfl, rfl⟩
    · obtain ⟨e', he', h1, h2⟩ := ih h
      exact ⟨e', List.mem_cons_of_mem e he', h1, h2⟩

/-- The helper `addPositions` preserves the descending order of the totals. -/
theorem addPositions_pairwise {n : Nat} {l : List RankingEntry}
    (h : l.Pairwise (fun a b => b.puntaje_total ≤ a.puntaje_total)) :
    (addPositions n l).Pairwise (fun a b => b.puntaje_total ≤ a.puntaje_total) := by
  induction l generalizing n with
  | nil => exact List.Pairwise.nil
  | cons e rest ih =>
    obtain ⟨h1, h2⟩ := List.pairwise_cons.1 h
    refine List.pairwise_cons.2 ⟨?_, ih h2⟩
    intro item hitem
    obtain ⟨e', he', -, hpt⟩ := addPositions_mem hitem
    rw [hpt]
    exact h1 e' he'

/-- C3: for every reachable store, the ranking of an existing trivia has one
entry per assigned user (distinct users, as many entries as assignments),
each entry's total being that user's summed `puntaje_obtenido` (zero if the
user answered nothing), sorted by descending total, with positions exactly
1..N by enumeration even on ties; a nonexistent trivia gives the 404. -/
theorem c3_ranking (db : DB) (hr : Reachable db) (trivia_id : Nat) :
    ((∃ t ∈ db.trivias, t.id = trivia_id) →
      ∃ resp, obtener_ranking trivia_id db = .ok db resp ∧
        resp.trivia_id = trivia_id ∧
        resp.ranking.length =
          (db.trivia_usuarios.filter (fun a => a.trivia_id == trivia_id)).length ∧
        (resp.ranking.map RankingItem.usuario_id).Perm
          ((db.trivia_usuarios.filter (fun a => a.trivia_id == trivia_id)).map
            TriviaUsuario.usuario_id) ∧
        (resp.ranking.map RankingItem.usuario_id).Nodup ∧
        (∀ item ∈ resp.ranking, item.puntaje_total =
          ((db.participaciones.filter (fun p =>
            p.trivia_id == trivia_id && p.usuario_id == item.usuario_id)).map
            Participacion.puntaje_obtenido).sum) ∧
        resp.ranking.Pairwise (fun a b => b.puntaje_total ≤ a.puntaje_total) ∧
        resp.ranking.map RankingItem.posicion = List.range' 1 resp.ranking.length) ∧
    ((∀ t ∈ db.trivias, t.id ≠ trivia_id) →
      obtener_ranking trivia_id db = .err db 404 (triviaNotFoundMsg trivia_id)) := by
  have hi := inv_reachable hr
  constructor
  · rintro ⟨t1, ht1, htid⟩
    obtain ⟨tv, htv⟩ := Option.isSome_iff_exists.1
      (List.find?_isSome.2 ⟨t1, ht1, by simp [htid]⟩ :
        (db.trivias.find? (fun x => x.id == trivia_id)).isSome)
    have hall : ∀ a ∈ db.trivia_usuarios.filter (fun a => a.trivia_id == trivia_id),
        ∃ u ∈ db.usuarios, u.id = a.usuario_id :=
      fun a ha => hi.tu_usuario a (List.mem_filter.1 ha).1
    obtain ⟨entries, hent⟩ := Option.isSome_iff_exists.1
      (rankingEntries_isSome db trivia_id _ hall)
    obtain ⟨hmapu, hsum⟩ := rankingEntries_spec hent
    have htrans : ∀ a b c : RankingEntry,
        decide (b.puntaje_total ≤ a.puntaje_total) = true →
        decide (c.puntaje_total ≤ b.puntaje_total) = true →
        decide (c.puntaje_total ≤ a.puntaje_total) = true := by
      intro a b c h1 h2
      simp only [decide_eq_true_eq] at h1 h2 ⊢
      omega
    have htotal : ∀ a b : RankingEntry,
        (decide (b.puntaje_total ≤ a.puntaje_total) ||
          decide (a.puntaje_total ≤ b.puntaje_total)) = true := by
      intro a b
      simp only [Bool.or_eq_true, decide_eq_true_eq]
      omega
    have hperm : ((entries.mergeSort
        (fun a b => decide (b.puntaje_total ≤ a.puntaje_total))).map
          RankingEntry.usuario_id).Perm
        ((db.trivia_usuarios.filter (fun a => a.trivia_id == trivia_id)).map
          TriviaUsuario.usuario_id) := by
      rw [← hmapu]
      exact (List.mergeSort_perm entries _).map _
    have hpair : (db.trivia_usuarios.filter
        (fun a => a.trivia_id == trivia_id)).Pairwise
        (fun a b => a.usuario_id ≠ b.usuario_id) := by
      have hp0 := hi.tu_unique.filter (fun a => a.trivia_id == trivia_id)
      refine hp0.imp_of_mem ?_
      intro a b ha hb hab
      have ha' := (List.mem_filter.1 ha).2
      have hb' := (List.mem_filter.1 hb).2
      simp only [beq_iff_eq] at ha' hb'
      exact hab (by omega)
    refine ⟨⟨trivia_id, tv.nombre, addPositions 1 (entries.mergeSort
      (fun a b => decide (b.puntaje_total ≤ a.puntaje_total)))⟩,
      ?_, rfl, ?_, ?_, ?_, ?_, ?_, ?_⟩
    · unfold obtener_ranking
      rw [htv]
      dsimp only []
      rw [hent]
    · dsimp only [RankingResponse.ranking]
      rw [addPositions_length]
      have h1 := (List.mergeSort_perm entries
        (fun a b => decide (b.puntaje_total ≤ a.puntaje_total))).length_eq
      have h2 := congrArg List.length hmapu
      simp only [List.length_map] at h2
      omega
    · dsimp only [RankingResponse.ranking]
      rw [addPositions_map_usuario]
      exact hperm
    · dsimp only [RankingResponse.ranking]
      rw [addPositions_map_usuario]
      refine (List.Perm.nodup_iff hperm).2 ?_
      exact List.pairwise_map.2 hpair
    · dsimp only [RankingResponse.ranking]
      intro item hitem
      obtain ⟨e, he, hu', hpt⟩ := addPositions_mem hitem
      have hee : e ∈ entries := (List.mergeSort_perm entries _).mem_iff.1 he
      rw [hpt, hu']
      exact hsum e hee
    · dsimp only [RankingResponse.ranking]
      have hs := List.sorted_mergeSort htrans htotal entries
      have hs' : (entries.mergeSort
          (fun a b => decide (b.puntaje_total ≤ a.puntaje_total))).Pairwise
          (fun a b => b.puntaje_total ≤ a.puntaje_total) := by
        refine hs.imp ?_
        intro a b h
        simpa using h
      exact addPositions_pairwise hs'
    · dsimp only [RankingResponse.ranking]
      rw [addPositions_map_posicion, addPositions_length]
  · intro hne
    have hnone : db.trivias.find? (fun x => x.id == trivia_id) = none :=
      List.find?_eq_none.2 (fun x hx => by simp [hne x hx])
    unfold obtener_ranking
    rw [hnone]

/-- Witness for C3 at the example run: the ranking of trivia 1 exists with
positions 1..N, and trivia 999 gives the 404. -/
theorem c3_ranking_witness :
    (∃ resp, obtener_ranking 1 exDB4 = .ok exDB4 resp ∧
      resp.ranking.map RankingItem.posicion = List.range' 1 resp.ranking.length) ∧
    obtener_ranking 999 exDB4 = .err exDB4 404 (triviaNotFoundMsg 999) := by
  constructor
  · obtain ⟨resp, h1, -, -, -, -, -, -, h8⟩ :=
      (c3_ranking exDB4 exDB4_reachable 1).1 ⟨exTrivia, by decide, by decide⟩
    exact ⟨resp, h1, h8⟩
  · exact (c3_ranking exDB4 exDB4_reachable 999).2 (by decide)
